import Mathlib

/-!
Shallow embedding of `workers/atc_thermometer.py` (plus the pieces of
`workers/base.py` it uses) from the bt-mqtt-gateway repository, and proofs
of the specification claims about it.

Modelling conventions:
* `time.time()` becomes an explicit `now : ℚ` argument.
* Python mutation of `AtcThermometerStatus` / the autoconf cache becomes
  explicit state passing: functions return the updated record.
* Python exceptions (`int(s, 16)` raising `ValueError`, the BLE scan
  raising `BTLEException`) become `Except` results.
* The MQTT message payloads (a string for LWT topics, a reading dict for
  state topics, an autoconf dict for config topics) become an inductive
  `Payload` type.
-/

namespace ATC

/-- Python slicing `s[a:b]` on strings: out-of-range slices truncate, never
raise. -/
def pySlice (s : String) (a b : Nat) : String :=
  String.mk ((s.data.drop a).take (b - a))

/-- Hex value of one character, as accepted by `int(-, 16)` for a bare hex
digit. -/
def hexDigit (c : Char) : Option Nat :=
  if '0' ≤ c ∧ c ≤ '9' then some (c.toNat - '0'.toNat)
  else if 'a' ≤ c ∧ c ≤ 'f' then some (c.toNat - 'a'.toNat + 10)
  else if 'A' ≤ c ∧ c ≤ 'F' then some (c.toNat - 'A'.toNat + 10)
  else none

/-- Embedding of Python `int(s, 16)` on the slices taken from an
advertisement text: a non-empty string of bare hex digits parses to its
value, the empty string and any string holding a non-hex-digit character
raise `ValueError` (here: `none`).  (Python `int` additionally tolerates
surrounding whitespace, a sign, underscores and an `0x` marker; those forms
cannot occur in the slices this module feeds it, so they are not modelled.) -/
def hexToNat (s : String) : Option Nat :=
  if s.data.isEmpty then none
  else s.data.foldlM (fun acc c => (hexDigit c).map (fun d => acc * 16 + d)) 0

/-- Python `str.replace(old, new, count)` specialised to deleting at most
`count` occurrences of one character, as in `mac.replace(':', '', 5)`. -/
def removeCharCount : List Char → Char → Nat → List Char
  | [], _, _ => []
  | x :: xs, _, 0 => x :: xs
  | x :: xs, c, Nat.succ n =>
    if x = c then removeCharCount xs c n
    else x :: removeCharCount xs c (Nat.succ n)

/-- `status.mac.replace(':', '', 5)` from `status_update`. -/
def stripColons5 (s : String) : String :=
  String.mk (removeCharCount s.data ':' 5)

/-- Python `str.title()` restricted to ASCII letters: a letter after a
non-letter is uppercased, a letter after a letter is lowercased. -/
def pyTitleGo : Bool → List Char → List Char
  | _, [] => []
  | prevAlpha, c :: cs =>
    if c.isAlpha then
      (if prevAlpha then c.toLower else c.toUpper) :: pyTitleGo true cs
    else
      c :: pyTitleGo false cs

/-- Python `str.title()`. -/
def pyTitle (s : String) : String :=
  String.mk (pyTitleGo false s.data)

/-- Python `str.capitalize()`: first character uppercased, the rest
lowercased. -/
def pyCapitalize (s : String) : String :=
  match s.data with
  | [] => ""
  | c :: cs => String.mk (c.toUpper :: cs.map Char.toLower)

/-- The nested `device` dictionary of `get_base_autoconf_data`. -/
structure AutoconfDevice where
  identifiers : String
  name : String
  mf : String
  mdl : String
  sw : String
deriving DecidableEq, Repr

/-- The dictionary built by `get_base_autoconf_data` (the `~` key is named
`tilde` here). -/
structure AutoconfData where
  tilde : String
  state_topic : String
  avty_t : String
  pl_avail : String
  pl_not_avail : String
  device : AutoconfDevice
  device_class : String
  name : String
  uniq_id : String
  value_template : String
  unit_of_measurement : String
deriving DecidableEq, Repr

/-- The payload of an outbound MQTT message: either a plain string (the
LWT topics), a decoded reading record (the state topic), or an
autoconfiguration record (the config topics).  Modelled from the spec:
`OutboundMessage.payload: string|structured`; the `mqtt` module itself is
outside `src/`. -/
inductive Payload where
  | str (s : String)
  | state (temperature : ℚ) (humidity : Nat) (battery : Nat) (rssi : ℤ)
  | config (c : AutoconfData)
deriving DecidableEq, Repr

/-- Modelled from the spec: `OutboundMessage: \x7btopic: string,
payload: string|structured, retain: bool\x7d`.  Mirrors the
`MqttMessage(topic=..., payload=..., retain=...)` constructor calls; the
`mqtt` module is outside `src/`. -/
structure MqttMessage where
  topic : String
  payload : Payload
  retain : Bool
deriving DecidableEq, Repr

/-- The configuration surface of `Atc_ThermometerWorker` used by the
claims, with the class-level defaults from the source.  `topicPrefix`
embeds the framework-injected `topic_prefix` attribute consumed by
`BaseWorker.format_topic`; `globalTopicPrefix` the `global_topic_prefix`
constructor argument. -/
structure Worker where
  topicPrefix : String
  globalTopicPrefix : String
  available_payload : String := "Online"
  unavailable_payload : String := "Offline"
  available_timeout : ℚ := 0
  unavailable_timeout : ℚ := 60
deriving DecidableEq, Repr

/-- `BaseWorker.format_topic` from `workers/base.py`:
`'/'.join([self.topic_prefix, *args])`, always called with one argument in
this module. -/
def Worker.format_topic (w : Worker) (arg : String) : String :=
  w.topicPrefix ++ "/" ++ arg

/-- Modelled from the spec: `format_prefixed_topic` is called by
`get_base_autoconf_data` but is not defined in `src/`; the spec gives the
topic composition `<global_topic_prefix>/<device_or_worker_prefix>/<suffix>`. -/
def Worker.format_prefixed_topic (w : Worker) (arg : String) : String :=
  w.globalTopicPrefix ++ "/" ++ w.topicPrefix ++ "/" ++ arg

/-- One discovered BLE device as the worker consumes it: the hardware
address, the signal strength, and the manufacturer data field
`getValueText(22)` (absent when the advertisement has no field 22). -/
structure Device where
  addr : String
  rssi : ℤ
  valueText22 : Option String
deriving DecidableEq, Repr

/-- `str(device.getValueText(22))`: Python stringifies the `None` returned
for a missing field to the four-character string `"None"`. -/
def Device.dataStr (d : Device) : String :=
  match d.valueText22 with
  | some s => s
  | none => "None"

/-- The per-device state object `AtcThermometerStatus` (the `worker` back
reference is passed explicitly where needed). -/
structure DeviceStatus where
  mac : String
  name : String
  available : Bool
  last_status_time : ℚ
  message_sent : Bool
deriving DecidableEq, Repr

/-- `AtcThermometerStatus.set_status`; `time.time()` is the explicit `now`. -/
def DeviceStatus.set_status (s : DeviceStatus) (available : Bool) (now : ℚ) :
    DeviceStatus :=
  if available != s.available then
    { s with available := available, last_status_time := now, message_sent := false }
  else
    s

/-- `AtcThermometerStatus._timeout`. -/
def DeviceStatus.timeout (w : Worker) (s : DeviceStatus) : ℚ :=
  if s.available then w.available_timeout else w.unavailable_timeout

/-- `AtcThermometerStatus.has_time_elapsed`; `time.time()` is the explicit
`now`. -/
def DeviceStatus.has_time_elapsed (w : Worker) (s : DeviceStatus) (now : ℚ) :
    Bool :=
  decide (now - s.last_status_time > s.timeout w)

/-- `AtcThermometerStatus.payload`. -/
def DeviceStatus.payload (w : Worker) (s : DeviceStatus) : String :=
  if s.available then w.available_payload else w.unavailable_payload

/-- `AtcThermometerStatus.generate_messages` (the `device` argument is
accepted and ignored, as in the source). -/
def DeviceStatus.generate_messages (w : Worker) (s : DeviceStatus)
    (_device : Option Device) : List MqttMessage :=
  [{ topic := w.format_topic (s.name ++ "/LWT"),
     payload := Payload.str (s.payload w),
     retain := true }]

/-- The uncaught Python exceptions a cycle can surface: `int(-, 16)` failing
on a malformed slice.  (`btle.BTLEException` is modelled separately as
`BTLEError`, because `status_update` catches it.) -/
inductive PyError where
  | valueError
deriving DecidableEq, Repr

/-- The transport error raised by `Scanner.scan` (`btle.BTLEException`). -/
structure BTLEError where
  msg : String
deriving DecidableEq, Repr

/-- `Atc_ThermometerWorker.parse_payload`.  `device` is `None` or a scan
entry (a `ScanEntry` object is always truthy, so `if (device):` is exactly
a `None` test); `int(-, 16)` raising `ValueError` surfaces as
`Except.error`.  The source also slices `data_str[4:16]` into `mac`, used
only for a debug log line, with no effect on the result. -/
def parse_payload (w : Worker) (device : Option Device) (name : String) :
    Except PyError (List MqttMessage) :=
  match device with
  | none => Except.ok []
  | some d =>
    let data_str := d.dataStr
    if pySlice data_str 0 4 = "1a18" then
      match hexToNat (pySlice data_str 16 20) with
      | none => Except.error PyError.valueError
      | some tempRaw =>
        let temp : ℚ := (tempRaw : ℚ) / 10
        match hexToNat (pySlice data_str 20 22) with
        | none => Except.error PyError.valueError
        | some hum =>
          match hexToNat (pySlice data_str 22 24) with
          | none => Except.error PyError.valueError
          | some batt =>
            Except.ok
              [{ topic := w.format_topic (name ++ "/state"),
                 payload := Payload.state temp hum batt d.rssi,
                 retain := true },
               { topic := w.format_topic (name ++ "/LWT"),
                 payload := Payload.str w.available_payload,
                 retain := true }]
    else
      Except.ok []

/-- `Atc_ThermometerWorker.get_base_autoconf_data`. -/
def get_base_autoconf_data (w : Worker) (key name deviceClass fieldName unit : String) :
    AutoconfData :=
  let properName := pyTitle (name.replace "_" " ")
  { tilde := w.format_prefixed_topic name
    state_topic := "~/state"
    avty_t := "~/LWT"
    pl_avail := w.available_payload
    pl_not_avail := w.unavailable_payload
    device :=
      { identifiers := key
        name := properName
        mf := "Xiaomi"
        mdl := "LYWSD03MMC"
        sw := "1.0" }
    device_class := deviceClass
    name := properName ++ " " ++ pyCapitalize fieldName
    uniq_id := key ++ "_" ++ fieldName
    value_template := "\x7b\x7b value_json." ++ fieldName ++ " | round(1) \x7d\x7d"
    unit_of_measurement := unit }

/-- `Atc_ThermometerWorker.get_autoconf_data`.  The mutable
`self.autoconfCache` dict (keys mapped to `True`) is the explicit `cache`
list of keys; the Python `return False` sentinel is `none`, a real message
list is `some`.  Returns the result together with the updated cache. -/
def get_autoconf_data (w : Worker) (cache : List String) (key name : String) :
    Option (List MqttMessage) × List String :=
  if key ∈ cache then
    (none, cache)
  else
    let tempConfig := get_base_autoconf_data w key name "temperature" "temperature" "°C"
    let humConfig := get_base_autoconf_data w key name "humidity" "humidity" "%"
    let batteryConfig := get_base_autoconf_data w key name "battery" "battery" "%"
    let rssiConfig := get_base_autoconf_data w key name "signal_strength" "rssi" "dB"
    (some
      [{ topic := w.format_topic (name ++ "/temperature/config")
         payload := Payload.config tempConfig
         retain := true },
       { topic := w.format_topic (name ++ "/humidity/config")
         payload := Payload.config humConfig
         retain := true },
       { topic := w.format_topic (name ++ "/battery/config")
         payload := Payload.config batteryConfig
         retain := true },
       { topic := w.format_topic (name ++ "/rssi/config")
         payload := Payload.config rssiConfig
         retain := true }],
     key :: cache)

/-- `mac_addresses = \x7bdevice.addr: device for device in devices\x7d`
followed by `mac_addresses.get(mac, None)`: in a dict comprehension a later
duplicate key overwrites an earlier one, so the lookup returns the last
matching device. -/
def lookupAddr (devices : List Device) (mac : String) : Option Device :=
  devices.foldl (fun acc d => if d.addr = mac then some d else acc) none

/-- `if autoconf_data != False: ret += autoconf_data` from `status_update`:
the messages appended for the autoconf result (nothing for the `False`
sentinel). -/
def autoconfAppend : Option (List MqttMessage) → List MqttMessage
  | some l => l
  | none => []

/-- The body of the `for status in self.last_status:` loop of
`status_update`, over the remaining statuses: returns the emitted messages,
the updated statuses (in order), and the final autoconf cache; an uncaught
`ValueError` from `parse_payload` aborts the cycle. -/
def runStatuses (w : Worker) (now : ℚ) (devices : List Device) :
    List DeviceStatus → List String →
    Except PyError (List MqttMessage × List DeviceStatus × List String)
  | [], cache => Except.ok ([], [], cache)
  | status :: rest, cache =>
    let device := lookupAddr devices status.mac
    let status1 := status.set_status device.isSome now
    let msgs1 := status1.generate_messages w device
    match parse_payload w device status1.name with
    | Except.error e => Except.error e
    | Except.ok msgs2 =>
      let uniqueId := stripColons5 status1.mac
      let ac := get_autoconf_data w cache uniqueId status1.name
      let msgs3 := autoconfAppend ac.1
      match runStatuses w now devices rest ac.2 with
      | Except.error e => Except.error e
      | Except.ok (msgsRest, statusesRest, cacheFinal) =>
        Except.ok (msgs1 ++ msgs2 ++ msgs3 ++ msgsRest,
                   status1 :: statusesRest, cacheFinal)

/-- `Atc_ThermometerWorker.status_update`.  The blocking
`self.scanner.scan(...)` call is the explicit `scan` argument: either the
discovered device list or a raised `btle.BTLEException`, which the source
catches, logs with suppression and answers with the empty `ret` — before
the loop has touched any status or the cache. -/
def status_update (w : Worker) (statuses : List DeviceStatus)
    (cache : List String) (scan : Except BTLEError (List Device)) (now : ℚ) :
    Except PyError (List MqttMessage × List DeviceStatus × List String) :=
  match scan with
  | Except.error _ => Except.ok ([], statuses, cache)
  | Except.ok devices => runStatuses w now devices statuses cache

/-- Number of retained messages in a list whose topic is the availability
topic `<name>/LWT` of the given device name. -/
def countLWT (w : Worker) (name : String) (msgs : List MqttMessage) : Nat :=
  (msgs.filter fun m =>
    decide (m.topic = w.format_topic (name ++ "/LWT")) && m.retain).length

/-- Modelled from the spec (refinement side for the temperature claim):
the temperature field read "as a signed 16-bit big-endian integer divided
by 10" — values at or above `0x8000` wrap to negative. -/
def signedTemp16 (raw : Nat) : ℚ :=
  ((if raw < 32768 then (raw : ℤ) else (raw : ℤ) - 65536) : ℚ) / 10

/-! Concrete fixtures for witnesses and counterexamples. -/

/-- A concrete worker configuration with the class-level defaults. -/
def testWorker : Worker :=
  { topicPrefix := "atc", globalTopicPrefix := "homeassistant" }

/-- A scan entry carrying a well-formed reading: temp `00fa`, hum `32`,
batt `64`. -/
def devReading : Device :=
  { addr := "a4:c1:38:00:00:01", rssi := -60,
    valueText22 := some "1a18a4c13800000100fa3264" }

/-- A scan entry whose temperature field is `ffff` (−0.1 °C on the wire). -/
def devNegTemp : Device :=
  { addr := "a4:c1:38:00:00:01", rssi := -60,
    valueText22 := some "1a18a4c138000001ffff3264" }

/-- A scan entry whose advertisement text is exactly the prefix `"1a18"`:
the prefix check passes but every field slice is empty. -/
def devShortPayload : Device :=
  { addr := "a4:c1:38:00:00:01", rssi := -60, valueText22 := some "1a18" }

/-- A scan entry with no manufacturer-data field 22. -/
def devNoField22 : Device :=
  { addr := "a4:c1:38:00:00:01", rssi := -60, valueText22 := none }

/-- A concrete device status. -/
def testStatus : DeviceStatus :=
  { mac := "a4:c1:38:00:00:01", name := "sensor", available := false,
    last_status_time := 0, message_sent := true }

/-- The two messages `parse_payload` produces for `devReading` under
`testWorker` (used to instantiate the cycle-structure theorem). -/
def readingMsgs : List MqttMessage :=
  [{ topic := testWorker.format_topic ("sensor" ++ "/state"),
     payload := Payload.state (((250 : ℕ) : ℚ) / 10) 50 100 (-60),
     retain := true },
   { topic := testWorker.format_topic ("sensor" ++ "/LWT"),
     payload := Payload.str testWorker.available_payload,
     retain := true }]

/-! Helper lemmas about `set_status` and topics. -/

theorem set_status_name (s : DeviceStatus) (a : Bool) (now : ℚ) :
    (s.set_status a now).name = s.name := by
  unfold DeviceStatus.set_status
  split <;> rfl

theorem set_status_mac (s : DeviceStatus) (a : Bool) (now : ℚ) :
    (s.set_status a now).mac = s.mac := by
  unfold DeviceStatus.set_status
  split <;> rfl

theorem set_status_available (s : DeviceStatus) (a : Bool) (now : ℚ) :
    (s.set_status a now).available = a := by
  unfold DeviceStatus.set_status
  split
  · rfl
  · next h =>
    simp only [bne_iff_ne, ne_eq, not_not] at h
    exact h.symm

theorem set_status_noop_of_eq (s : DeviceStatus) (a : Bool) (now : ℚ)
    (h : a = s.available) : s.set_status a now = s := by
  unfold DeviceStatus.set_status
  rw [if_neg]
  simp [h]

theorem format_topic_state_ne_lwt (w : Worker) (n : String) :
    w.format_topic (n ++ "/state") ≠ w.format_topic (n ++ "/LWT") := by
  intro h
  have hlen := congrArg String.length h
  have h6 : ("/state" : String).length = 6 := rfl
  have h4 : ("/LWT" : String).length = 4 := rfl
  simp only [Worker.format_topic, String.length_append, h6, h4] at hlen
  omega

/-- C1: the specification reads the temperature field as a signed 16-bit
big-endian integer divided by 10, and the code agrees with it on the
positive examples (`00FA` gives 25.0, hum `32` gives 50, batt `64` gives
100); but `int(data_str[16:20], 16)` is an unsigned read, so at the wire
value `ffff` — which the signed reading maps to −0.1 °C — the code reports
6553.5 °C.  The code cannot represent any temperature below zero, which a
thermometer must: the specification is the intent and the unsigned decode
is the bug. -/
theorem C1_unsigned_temperature_divergence :
    parse_payload testWorker (some devReading) "sensor" =
      Except.ok
        [{ topic := "atc/sensor/state",
           payload := Payload.state 25 50 100 (-60), retain := true },
         { topic := "atc/sensor/LWT",
           payload := Payload.str "Online", retain := true }] ∧
    signedTemp16 250 = 25 ∧
    parse_payload testWorker (some devNegTemp) "sensor" =
      Except.ok
        [{ topic := "atc/sensor/state",
           payload := Payload.state (13107 / 2) 50 100 (-60), retain := true },
         { topic := "atc/sensor/LWT",
           payload := Payload.str "Online", retain := true }] ∧
    signedTemp16 65535 = -1 / 10 ∧
    (13107 / 2 : ℚ) ≠ -1 / 10 := by
  refine ⟨?_, by norm_num [signedTemp16], ?_, by norm_num [signedTemp16],
    by norm_num⟩
  · have h1 : pySlice devReading.dataStr 0 4 = "1a18" := by decide
    have h2 : hexToNat (pySlice devReading.dataStr 16 20) = some 250 := by decide
    have h3 : hexToNat (pySlice devReading.dataStr 20 22) = some 50 := by decide
    have h4 : hexToNat (pySlice devReading.dataStr 22 24) = some 100 := by decide
    simp only [parse_payload, h1, h2, h3, h4, if_true]
    norm_num [Worker.format_topic, testWorker, devReading]
    exact ⟨by decide, by decide⟩
  · have h1 : pySlice devNegTemp.dataStr 0 4 = "1a18" := by decide
    have h2 : hexToNat (pySlice devNegTemp.dataStr 16 20) = some 65535 := by decide
    have h3 : hexToNat (pySlice devNegTemp.dataStr 20 22) = some 50 := by decide
    have h4 : hexToNat (pySlice devNegTemp.dataStr 22 24) = some 100 := by decide
    simp only [parse_payload, h1, h2, h3, h4, if_true]
    norm_num [Worker.format_topic, testWorker, devNegTemp]
    exact ⟨by decide, by decide⟩

/-- C2 counterexample: `parse_payload` is claimed never to raise, yet the
payload that is exactly the prefix `"1a18"` passes the prefix check, makes
every field slice empty, and `int("", 16)` raises `ValueError`. -/
theorem C2_counterexample_short_payload :
    parse_payload testWorker (some devShortPayload) "sensor" =
      Except.error PyError.valueError := rfl

/-- C2 (amended): `parse_payload` returns zero messages without raising
when the device is absent or when the first 4 characters of the payload
are not `"1a18"`; but a payload that does begin with `"1a18"` and whose
field slices fail to parse as hex (too short or non-hex characters) makes
`int(-, 16)` raise a `ValueError` that propagates — there is no length
check. -/
theorem C2_amended_parse_failure_modes (w : Worker) (name : String) :
    parse_payload w none name = Except.ok [] ∧
    (∀ d : Device, pySlice d.dataStr 0 4 ≠ "1a18" →
        parse_payload w (some d) name = Except.ok []) ∧
    ∀ d : Device, pySlice d.dataStr 0 4 = "1a18" →
      (hexToNat (pySlice d.dataStr 16 20) = none ∨
       hexToNat (pySlice d.dataStr 20 22) = none ∨
       hexToNat (pySlice d.dataStr 22 24) = none) →
      parse_payload w (some d) name = Except.error PyError.valueError := by
  refine ⟨rfl, fun d h => ?_, fun d hpre hbad => ?_⟩
  · simp only [parse_payload]
    rw [if_neg h]
  · simp only [parse_payload]
    rw [if_pos hpre]
    cases h16 : hexToNat (pySlice d.dataStr 16 20) with
    | none => rfl
    | some t =>
      cases h20 : hexToNat (pySlice d.dataStr 20 22) with
      | none => rfl
      | some u =>
        cases h22 : hexToNat (pySlice d.dataStr 22 24) with
        | none => rfl
        | some v =>
          rcases hbad with hb | hb | hb
          · rw [h16] at hb
            simp at hb
          · rw [h20] at hb
            simp at hb
          · rw [h22] at hb
            simp at hb

/-- C2 witness: the amended statement instantiated at the short payload
`"1a18"`. -/
theorem C2_amended_witness :
    (pySlice (Device.dataStr devShortPayload) 0 4 = "1a18" ∧
     hexToNat (pySlice (Device.dataStr devShortPayload) 16 20) = none) ∧
    parse_payload testWorker (some devShortPayload) "sensor" =
      Except.error PyError.valueError :=
  ⟨⟨by decide, by decide⟩,
   (C2_amended_parse_failure_modes testWorker "sensor").2.2 devShortPayload
     (by decide) (Or.inl (by decide))⟩

/-- C3: the first `get_autoconf_data` call for a key returns exactly four
retained configuration messages — temperature, humidity, battery and
signal strength — and marks the key done; every later call with that key
returns the nothing-to-do sentinel even under a different name, and the
cache only ever grows. -/
theorem C3_autoconf_once (w : Worker) (cache : List String)
    (key name name2 : String) (h : key ∉ cache) :
    (∃ m1 m2 m3 m4 : MqttMessage,
      (get_autoconf_data w cache key name).1 = some [m1, m2, m3, m4] ∧
      m1.topic = w.format_topic (name ++ "/temperature/config") ∧
      m1.retain = true ∧
      m2.topic = w.format_topic (name ++ "/humidity/config") ∧
      m2.retain = true ∧
      m3.topic = w.format_topic (name ++ "/battery/config") ∧
      m3.retain = true ∧
      m4.topic = w.format_topic (name ++ "/rssi/config") ∧
      m4.retain = true) ∧
    (get_autoconf_data w cache key name).2 = key :: cache ∧
    get_autoconf_data w (get_autoconf_data w cache key name).2 key name2 =
      (none, (get_autoconf_data w cache key name).2) ∧
    ∀ (c : List String) (k n : String), c ⊆ (get_autoconf_data w c k n).2 := by
  have hsnd : (get_autoconf_data w cache key name).2 = key :: cache := by
    unfold get_autoconf_data
    rw [if_neg h]
  refine ⟨?_, hsnd, ?_, ?_⟩
  · unfold get_autoconf_data
    rw [if_neg h]
    exact ⟨_, _, _, _, rfl, rfl, rfl, rfl, rfl, rfl, rfl, rfl, rfl⟩
  · rw [hsnd]
    unfold get_autoconf_data
    rw [if_pos (List.mem_cons_self key cache)]
  · intro c k n
    unfold get_autoconf_data
    split
    · exact fun x hx => hx
    · exact List.subset_cons_self _ c

/-- C3 witness: the once-per-key behaviour at a concrete key, on the empty
cache. -/
theorem C3_witness :
    ("a4c138000001" ∉ ([] : List String)) ∧
    (get_autoconf_data testWorker [] "a4c138000001" "sensor").2 =
      ["a4c138000001"] ∧
    get_autoconf_data testWorker
        (get_autoconf_data testWorker [] "a4c138000001" "sensor").2
        "a4c138000001" "other" =
      (none, (get_autoconf_data testWorker [] "a4c138000001" "sensor").2) :=
  ⟨by decide,
   (C3_autoconf_once testWorker [] "a4c138000001" "sensor" "other"
       (by decide)).2.1,
   (C3_autoconf_once testWorker [] "a4c138000001" "sensor" "other"
       (by decide)).2.2.1⟩

/-- C4: `set_status` with a value different from the current flag flips
the flag, stamps `last_status_time` with the current time and clears
`message_sent`; and `last_status_time` can only change on such a
transition. -/
theorem C4_set_status_transition (s : DeviceStatus) (a : Bool) (now : ℚ)
    (h : a ≠ s.available) :
    ((s.set_status a now).available = a ∧
     (s.set_status a now).last_status_time = now ∧
     (s.set_status a now).message_sent = false) ∧
    ∀ (s2 : DeviceStatus) (b : Bool) (t : ℚ),
      (s2.set_status b t).last_status_time ≠ s2.last_status_time →
        b ≠ s2.available := by
  constructor
  · unfold DeviceStatus.set_status
    rw [if_pos (by simpa [bne_iff_ne] using h)]
    exact ⟨rfl, rfl, rfl⟩
  · intro s2 b t hne hb
    exact hne (by rw [set_status_noop_of_eq s2 b t hb])

/-- C4 witness: a false-to-true transition at time 5. -/
theorem C4_witness :
    (true ≠ testStatus.available) ∧
    (testStatus.set_status true 5).last_status_time = 5 ∧
    (testStatus.set_status true 5).message_sent = false :=
  ⟨by decide, (C4_set_status_transition testStatus true 5 (by decide)).1.2⟩

/-- C5: `set_status` with the current flag value is a no-op on the whole
record, so repeating a call with the same argument leaves
`last_status_time` at its value after the first call. -/
theorem C5_set_status_idempotent (s : DeviceStatus) (a : Bool) (now : ℚ)
    (h : a = s.available) :
    s.set_status a now = s ∧
    ∀ (s2 : DeviceStatus) (b : Bool) (t u : ℚ),
      ((s2.set_status b t).set_status b u).last_status_time =
        (s2.set_status b t).last_status_time := by
  refine ⟨set_status_noop_of_eq s a now h, fun s2 b t u => ?_⟩
  rw [set_status_noop_of_eq _ b u (set_status_available s2 b t).symm]

/-- C5 witness: repeating the current availability at time 5 changes
nothing. -/
theorem C5_witness :
    (false = testStatus.available) ∧
    testStatus.set_status false 5 = testStatus :=
  ⟨by decide, (C5_set_status_idempotent testStatus false 5 (by decide)).1⟩

/-- C6: `generate_messages` always returns exactly one retained message on
the `<name>/LWT` topic carrying the configured online string when
available and the offline string otherwise, and the result ignores
`message_sent`, `last_status_time` (hence any timeout) and the device
argument. -/
theorem C6_generate_messages_unconditional (w : Worker) (s : DeviceStatus)
    (device : Option Device) :
    s.generate_messages w device =
      [{ topic := w.format_topic (s.name ++ "/LWT"),
         payload := Payload.str
           (if s.available then w.available_payload else w.unavailable_payload),
         retain := true }] ∧
    ∀ (t : ℚ) (m : Bool) (device2 : Option Device),
      DeviceStatus.generate_messages w
          { s with last_status_time := t, message_sent := m } device2 =
        s.generate_messages w device :=
  ⟨rfl, fun _ _ _ => rfl⟩

/-- C7: when the scan primitive raises its transport error,
`status_update` suppresses it and returns the empty message list with
every status and the autoconf cache untouched. -/
theorem C7_scan_error_suppressed (w : Worker) (statuses : List DeviceStatus)
    (cache : List String) (e : BTLEError) (now : ℚ) :
    status_update w statuses cache (Except.error e) now =
      Except.ok ([], statuses, cache) := rfl

/-- C8: on a successful scan the cycle output is, device by device in list
order, the one unconditional availability message, then the parser
messages, then the autoconf messages for the colon-stripped MAC key (with
the cache threaded through to the remaining devices); and a present device
whose payload decoded (the parser returned its two messages) contributes
exactly two retained `<name>/LWT` messages in that cycle. -/
theorem C8_cycle_concatenation (w : Worker) (s : DeviceStatus)
    (rest : List DeviceStatus) (cache : List String) (devices : List Device)
    (now : ℚ) (pm restMsgs : List MqttMessage) (restSts : List DeviceStatus)
    (cacheF : List String)
    (hp : parse_payload w (lookupAddr devices s.mac) s.name = Except.ok pm)
    (hrest : status_update w rest
        ((get_autoconf_data w cache (stripColons5 s.mac) s.name).2)
        (Except.ok devices) now = Except.ok (restMsgs, restSts, cacheF)) :
    status_update w (s :: rest) cache (Except.ok devices) now =
      Except.ok
        ((s.set_status (lookupAddr devices s.mac).isSome now).generate_messages w
            (lookupAddr devices s.mac) ++
          pm ++
          autoconfAppend
            (get_autoconf_data w cache (stripColons5 s.mac) s.name).1 ++
          restMsgs,
         s.set_status (lookupAddr devices s.mac).isSome now :: restSts,
         cacheF) ∧
    (∀ d : Device, lookupAddr devices s.mac = some d → pm.length = 2 →
      countLWT w s.name
        ((s.set_status (lookupAddr devices s.mac).isSome now).generate_messages w
            (lookupAddr devices s.mac) ++ pm) = 2) := by
  constructor
  · have hrest' : runStatuses w now devices rest
        ((get_autoconf_data w cache (stripColons5 s.mac) s.name).2) =
        Except.ok (restMsgs, restSts, cacheF) := hrest
    show runStatuses w now devices (s :: rest) cache = _
    simp only [runStatuses, set_status_name, set_status_mac, hp, hrest']
  · intro d hd hlen
    rw [hd] at hp
    simp only [parse_payload] at hp
    by_cases hpre : pySlice d.dataStr 0 4 = "1a18"
    · rw [if_pos hpre] at hp
      cases h16 : hexToNat (pySlice d.dataStr 16 20) with
      | none => rw [h16] at hp; simp at hp
      | some t =>
        rw [h16] at hp
        cases h20 : hexToNat (pySlice d.dataStr 20 22) with
        | none => rw [h20] at hp; simp at hp
        | some u =>
          rw [h20] at hp
          cases h22 : hexToNat (pySlice d.dataStr 22 24) with
          | none => rw [h22] at hp; simp at hp
          | some v =>
            rw [h22] at hp
            simp only [Except.ok.injEq] at hp
            have hne := format_topic_state_ne_lwt w s.name
            rw [hd]
            simp [countLWT, DeviceStatus.generate_messages, set_status_name,
              ← hp, hne]
    · rw [if_neg hpre] at hp
      simp only [Except.ok.injEq] at hp
      rw [← hp] at hlen
      simp at hlen

/-- C8 witness: one configured device, present in the scan with a valid
payload, on the empty cache. -/
theorem C8_witness :
    (parse_payload testWorker (lookupAddr [devReading] testStatus.mac)
        testStatus.name = Except.ok readingMsgs) ∧
    (status_update testWorker []
        ((get_autoconf_data testWorker [] (stripColons5 testStatus.mac)
            testStatus.name).2)
        (Except.ok [devReading]) 7 =
      Except.ok ([], [],
        (get_autoconf_data testWorker [] (stripColons5 testStatus.mac)
            testStatus.name).2)) ∧
    countLWT testWorker testStatus.name
      ((testStatus.set_status (lookupAddr [devReading] testStatus.mac).isSome
            7).generate_messages testWorker
          (lookupAddr [devReading] testStatus.mac) ++ readingMsgs) = 2 :=
  ⟨rfl, rfl,
   (C8_cycle_concatenation testWorker testStatus [] [] [devReading] 7
       readingMsgs [] []
       ((get_autoconf_data testWorker [] (stripColons5 testStatus.mac)
           testStatus.name).2)
       rfl rfl).2 devReading (by decide) rfl⟩

/-- C9: `parse_payload` returns the empty message list when the device
argument is absent or when the first 4 characters of the payload are not
`"1a18"`. -/
theorem C9_absent_or_nonmatching (w : Worker) (name : String) :
    parse_payload w none name = Except.ok [] ∧
    ∀ d : Device, pySlice d.dataStr 0 4 ≠ "1a18" →
      parse_payload w (some d) name = Except.ok [] := by
  refine ⟨rfl, fun d h => ?_⟩
  simp only [parse_payload]
  rw [if_neg h]

/-- C9 witness: an absent device and a device whose stringified missing
field is `"None"`. -/
theorem C9_witness :
    (pySlice (Device.dataStr devNoField22) 0 4 ≠ "1a18") ∧
    parse_payload testWorker (some devNoField22) "sensor" = Except.ok [] ∧
    parse_payload testWorker none "sensor" = Except.ok [] :=
  ⟨by decide,
   (C9_absent_or_nonmatching testWorker "sensor").2 devNoField22 (by decide),
   (C9_absent_or_nonmatching testWorker "sensor").1⟩

/-- C10: a device present in the scan whose advertisement has no field 22
stringifies to `"None"`, fails the prefix check and yields zero parser
messages, while the same cycle still marks it available and emits the
online availability message. -/
theorem C10_missing_field22 (w : Worker) (s : DeviceStatus)
    (devices : List Device) (d : Device) (now : ℚ)
    (hlook : lookupAddr devices s.mac = some d)
    (hdata : d.valueText22 = none) :
    parse_payload w (some d) s.name = Except.ok [] ∧
    (s.set_status (lookupAddr devices s.mac).isSome now).available = true ∧
    (s.set_status (lookupAddr devices s.mac).isSome now).generate_messages w
        (some d) =
      [{ topic := w.format_topic (s.name ++ "/LWT"),
         payload := Payload.str w.available_payload, retain := true }] := by
  have hstr : d.dataStr = "None" := by
    unfold Device.dataStr
    rw [hdata]
  have hisSome : (lookupAddr devices s.mac).isSome = true := by
    rw [hlook]
    rfl
  refine ⟨?_, ?_, ?_⟩
  · simp only [parse_payload]
    rw [if_neg (by rw [hstr]; decide)]
  · rw [hisSome, set_status_available]
  · have hpl : (s.set_status true now).payload w = w.available_payload := by
      unfold DeviceStatus.payload
      rw [set_status_available]
      simp
    rw [hisSome]
    simp only [DeviceStatus.generate_messages, set_status_name, hpl]

/-- C10 witness: one scan entry matching the configured MAC but with no
field 22. -/
theorem C10_witness :
    (lookupAddr [devNoField22] testStatus.mac = some devNoField22 ∧
     devNoField22.valueText22 = none) ∧
    parse_payload testWorker (some devNoField22) testStatus.name =
      Except.ok [] ∧
    (testStatus.set_status
        (lookupAddr [devNoField22] testStatus.mac).isSome 7).available = true ∧
    (testStatus.set_status
          (lookupAddr [devNoField22] testStatus.mac).isSome 7).generate_messages
        testWorker (some devNoField22) =
      [{ topic := testWorker.format_topic (testStatus.name ++ "/LWT"),
         payload := Payload.str testWorker.available_payload,
         retain := true }] :=
  ⟨⟨by decide, rfl⟩,
   C10_missing_field22 testWorker testStatus [devNoField22] devNoField22 7
     (by decide) rfl⟩

end ATC

